import Mathlib

/-!
Verification of the deployment-orchestration core of the My-vercel repository:
the SQS-driven queue consumer (`deploy-service/src/index.ts`), the WebSocket
connection registry (`aws-lambda/ApiGatewaySockerHandler/index.js`) and the
DynamoDB-stream change notifier.

The embedding keeps the source's control flow: DynamoDB is a keyed store of
job records with upsert (`UpdateCommand` without condition) and conditional
(`attribute_exists(id)`) update semantics; JavaScript truthiness of optional
strings is modelled by `jsTruthy`; external collaborators (JSON.parse result
shapes, the build driver, the SQS receive/delete calls, the push gateway) are
oracle parameters of the consumer environment.
-/

namespace Vercel

/-- JavaScript truthiness of an optional string attribute: absent (`none`)
and the empty string are falsy, every other string is truthy. -/
def jsTruthy : Option String → Bool
  | none => false
  | some s => !(s == "")

/-- One job record of the `vercel-clone-status` DynamoDB table (key `id` kept
outside, as the store key). `error` and `connectionId` are optional
attributes. Timestamps are irrelevant to every claim and omitted. -/
structure Job where
  status : String
  error : Option String
  connectionId : Option String
  deriving Repr, DecidableEq

/-- The job store: a keyed collection of job records, keyed by job id. -/
def Store := List (String × Job)

instance : DecidableEq Store := by
  unfold Store; infer_instance

/-- Store lookup by job id. -/
def Store.find (s : Store) (id : String) : Option Job :=
  List.lookup id s

/-- Replace the record under `id`, or append a fresh one when absent
(DynamoDB `UpdateCommand` without a condition is an upsert). -/
def Store.set : Store → String → Job → Store
  | [], id, j => [(id, j)]
  | (k, v) :: rest, id, j =>
    if k == id then (id, j) :: rest else (k, v) :: Store.set rest id j

/-- Effect of the consumer's `UpdateCommand` on the single record under the
given key: `SET #status = :s, updatedAt = :t` always, plus `SET #error = :e`
exactly when the `errorMsg` argument is truthy (`if (errorMsg)` in the
source). On an absent key DynamoDB creates the item with just the written
attributes. Attributes not mentioned in the update expression are kept. -/
def applyStatusUpdate (j : Option Job) (st : String) (errorMsg : Option String) : Job :=
  let base := j.getD { status := "", error := none, connectionId := none }
  if jsTruthy errorMsg then { base with status := st, error := errorMsg }
  else { base with status := st }

/-- The store after the consumer's status-update write. -/
def Store.updateStatus (s : Store) (id st : String) (errorMsg : Option String) : Store :=
  Store.set s id (applyStatusUpdate (Store.find s id) st errorMsg)

/-- Observable events of one consumer run: a status write (with whether the
DynamoDB send succeeded, i.e. the write became durable) and a successful
queue-message deletion. -/
inductive Event where
  | write (id : String) (status : String) (errorMsg : Option String) (durable : Bool)
  | deleteMsg
  deriving Repr, DecidableEq

/-- Function `updateStatus` of `deploy-service/src/index.ts`: attempts the DynamoDB
write and, crucially, catches any failure of the send and only logs it — the
function returns normally whether or not the write was recorded. `writeOk`
is the oracle saying whether the send for a given status value succeeds. -/
def updateStatus (writeOk : String → Bool) (s : Store) (id st : String)
    (errorMsg : Option String) : Store × List Event :=
  (if writeOk st then Store.updateStatus s id st errorMsg else s,
   [Event.write id st errorMsg (writeOk st)])

/-- Shape of `JSON.parse(message.Body)` as the consumer uses it: the parse
can throw, produce a falsy value (`!body` throws "Invalid message body"), or
produce a truthy value whose `id` member is the given optional string
(`none` when the member is missing). -/
inductive CParse where
  | throw
  | falsy
  | value (id : Option String)
  deriving Repr, DecidableEq

/-- An SQS message as the consumer sees it: optional receipt handle and
optional raw body. -/
structure SqsMessage where
  receiptHandle : Option String
  body : Option String
  deriving Repr, DecidableEq

/-- Environment of the consumer: the outcome of `JSON.parse` on each raw
body, the outcome of `startBuildAndWait` per job id (the build driver is an
external collaborator per the spec), whether each status write's DynamoDB
send succeeds, and whether the SQS delete send succeeds. -/
structure ConsumerEnv where
  parse : String → CParse
  build : String → Except String Unit
  writeOk : String → Bool
  deleteOk : Bool

/-- Result of processing one received message. `thrown` is an exception
escaping the per-message `try` (only the delete send can do that, all other
failures are caught inside). -/
structure ProcResult where
  store : Store
  trace : List Event
  parsedId : Option String
  deleted : Bool
  thrown : Option String
  deriving DecidableEq

/-- One iteration of the per-message body of `startPolling`
(`deploy-service/src/index.ts`): skip messages without a receipt handle;
throw (caught locally) on missing body, unparsable body, falsy parse result
or falsy `body.id` — in the catch, write ERROR only when `body?.id` is
truthy, and `continue` without deleting; otherwise write IN_PROGRESS, run
the build, on build failure write ERROR with `err.message || "Unknown
error"` and keep the message, on success write DEPLOYED and then delete. -/
def processMessage (env : ConsumerEnv) (s : Store) (msg : SqsMessage) : ProcResult :=
  if msg.receiptHandle.isNone then
    { store := s, trace := [], parsedId := none, deleted := false, thrown := none }
  else
    match msg.body with
    | none => { store := s, trace := [], parsedId := none, deleted := false, thrown := none }
    | some raw =>
      match env.parse raw with
      | CParse.throw =>
        { store := s, trace := [], parsedId := none, deleted := false, thrown := none }
      | CParse.falsy =>
        { store := s, trace := [], parsedId := none, deleted := false, thrown := none }
      | CParse.value idOpt =>
        if jsTruthy idOpt then
          let jid := idOpt.getD ""
          let r1 := updateStatus env.writeOk s jid "IN_PROGRESS" none
          match env.build jid with
          | Except.error e =>
            let emsg := if e == "" then "Unknown error" else e
            let r2 := updateStatus env.writeOk r1.1 jid "ERROR" (some emsg)
            { store := r2.1, trace := r1.2 ++ r2.2, parsedId := some jid,
              deleted := false, thrown := none }
          | Except.ok _ =>
            let r2 := updateStatus env.writeOk r1.1 jid "DEPLOYED" none
            if env.deleteOk then
              { store := r2.1, trace := r1.2 ++ r2.2 ++ [Event.deleteMsg],
                parsedId := some jid, deleted := true, thrown := none }
            else
              { store := r2.1, trace := r1.2 ++ r2.2, parsedId := some jid,
                deleted := false, thrown := some "delete send failed" }
        else
          { store := s, trace := [], parsedId := none, deleted := false, thrown := none }

/-- A run of the consumer over a sequence of message deliveries (possibly
redeliveries of the same message across polling iterations), accumulating
the event trace. -/
def runConsumer (env : ConsumerEnv) : Store → List SqsMessage → Store × List Event
  | s, [] => (s, [])
  | s, m :: ms =>
    let r := processMessage env s m
    let rest := runConsumer env r.store ms
    (rest.1, r.trace ++ rest.2)

/-- The durable status values written for a given job id, in trace order. -/
def writesOf (id : String) (t : List Event) : List String :=
  t.filterMap fun e =>
    match e with
    | Event.write i st _ durable => if i == id && durable then some st else none
    | Event.deleteMsg => none

/-- Every `deleteMsg` in the trace is preceded by an attempted DEPLOYED
write for the given job id (durable or not). -/
def deployAttemptBeforeDeletes (id : String) : List Event → Bool :=
  go false
where
  go : Bool → List Event → Bool
  | _, [] => true
  | seen, Event.write i st _ _ :: rest => go (seen || (i == id && st == "DEPLOYED")) rest
  | seen, Event.deleteMsg :: rest => seen && go seen rest

/-- Outcome of the `ReceiveMessageCommand` send: the call itself may throw,
or return a (possibly empty) batch of messages. -/
inductive ReceiveResult where
  | err (e : String)
  | ok (msgs : List SqsMessage)
  deriving Repr, DecidableEq

/-- Process the received batch in order; an exception escaping a message's
processing (the delete send, which sits outside the inner `try`) aborts the
rest of the batch and propagates to the outer catch. -/
def processMessages (env : ConsumerEnv) :
    Store → List SqsMessage → Store × List Event × Option String
  | s, [] => (s, [], none)
  | s, m :: ms =>
    let r := processMessage env s m
    match r.thrown with
    | some e => (r.store, r.trace, some e)
    | none =>
      let rest := processMessages env r.store ms
      (rest.1, r.trace ++ rest.2.1, rest.2.2)

/-- One iteration of the outer `while (true)` loop of `startPolling`: its
result is the new store, the trace, and the backoff in milliseconds before
the next iteration (5000 exactly when the outer `catch` fired, 0 when the
iteration body completed). The function is total: no iteration terminates
the process. -/
def pollIteration (env : ConsumerEnv) (receive : ReceiveResult) (s : Store) :
    Store × List Event × Nat :=
  match receive with
  | ReceiveResult.err _ => (s, [], 5000)
  | ReceiveResult.ok msgs =>
    let r := processMessages env s msgs
    (r.1, r.2.1, if r.2.2.isSome then 5000 else 0)

/-!
Connection registry (`aws-lambda/ApiGatewaySockerHandler/index.js`)
-/

/-- Shape of `JSON.parse(event.body)` as the register route uses it:
`throw` (parse error, and also `JSON.parse(undefined)`), `nullish`
(parses to `null`/`undefined`, so reading `.id` throws a TypeError), or any
other value whose `id` member is the given optional string — falsy
non-null values like `0` fall under `object none` since reading `.id` on
them yields `undefined`. -/
inductive RParse where
  | throw
  | nullish
  | object (id : Option String)
  deriving Repr, DecidableEq

/-- A WebSocket route event as delivered by API Gateway. -/
structure WsEvent where
  routeKey : String
  connectionId : String
  body : Option String
  deriving Repr, DecidableEq

/-- HTTP-style response returned by the socket handler. -/
structure WsResponse where
  statusCode : Nat
  body : String
  deriving Repr, DecidableEq

/-- A push sent back over the socket by the register route
(`{type:"SYSTEM", message}`). -/
structure SysPush where
  connectionId : String
  message : String
  deriving Repr, DecidableEq

/-- Result of one socket-handler invocation. -/
structure WsResult where
  store : Store
  response : WsResponse
  pushes : List SysPush
  deriving DecidableEq

/-- The conditional registration write: `UpdateCommand` with
`ConditionExpression: "attribute_exists(id)"` — on an absent key DynamoDB
throws a conditional-check failure and writes nothing; on a present key it
sets the `connectionId` attribute and touches nothing else. -/
def registerWrite (s : Store) (id cid : String) : Except Unit Store :=
  match Store.find s id with
  | none => Except.error ()
  | some j => Except.ok (Store.set s id { j with connectionId := some cid })

/-- Function `handler` of `ApiGatewaySockerHandler/index.js`: `$connect` and
`$disconnect` are acknowledged without touching the store; `register`
parses the body, returns 400 when `body.id` is falsy, performs the
conditional write, replies with a SYSTEM confirmation push on success, and
maps every thrown error (parse failure, TypeError on a nullish body,
conditional-check failure) to a 500 "Registration failed." response;
unknown routes get 404. -/
def wsHandler (parse : String → RParse) (s : Store) (ev : WsEvent) : WsResult :=
  if ev.routeKey == "$connect" then
    { store := s, response := { statusCode := 200, body := "Connected." }, pushes := [] }
  else if ev.routeKey == "$disconnect" then
    { store := s, response := { statusCode := 200, body := "Disconnected." }, pushes := [] }
  else if ev.routeKey == "register" then
    match ev.body with
    | none =>
      { store := s, response := { statusCode := 500, body := "Registration failed." },
        pushes := [] }
    | some raw =>
      match parse raw with
      | RParse.throw =>
        { store := s, response := { statusCode := 500, body := "Registration failed." },
          pushes := [] }
      | RParse.nullish =>
        { store := s, response := { statusCode := 500, body := "Registration failed." },
          pushes := [] }
      | RParse.object idOpt =>
        if jsTruthy idOpt then
          let did := idOpt.getD ""
          match registerWrite s did ev.connectionId with
          | Except.error _ =>
            { store := s, response := { statusCode := 500, body := "Registration failed." },
              pushes := [] }
          | Except.ok s' =>
            { store := s',
              response := { statusCode := 200, body := "Registered." },
              pushes := [{ connectionId := ev.connectionId,
                           message := "Successfully registered for updates on " ++ did }] }
        else
          { store := s,
            response := { statusCode := 400, body := "Missing 'id' in register message." },
            pushes := [] }
  else
    { store := s, response := { statusCode := 404, body := "Unknown route." }, pushes := [] }

/-!
Change notifier (the DynamoDB-stream Lambda, `src/unnamed/part_000`)
-/

/-- The unmarshalled `NewImage` of a stream record: the full job record
including its key. -/
structure StreamImage where
  id : String
  status : String
  error : Option String
  connectionId : Option String
  deriving Repr, DecidableEq

/-- One DynamoDB-stream record: event name (`INSERT`, `MODIFY`, `REMOVE`)
and the optional new image. -/
structure StreamRecord where
  eventName : String
  newImage : Option StreamImage
  deriving Repr, DecidableEq

/-- The `STATUS_UPDATE` payload posted to a registered connection. The
`error` field is always materialised; `none` stands for JSON `null`
(the source writes `error: deployment.error || null`, so a falsy stored
error becomes `null`). -/
structure Payload where
  type : String
  id : String
  status : String
  error : Option String
  deriving Repr, DecidableEq

/-- One attempted `PostToConnectionCommand`. -/
structure PushAttempt where
  connectionId : String
  payload : Payload
  deriving Repr, DecidableEq

/-- Outcome of posting to a connection, per the gateway. -/
inductive PostResult where
  | ok
  | errStatus (code : Nat)
  deriving Repr, DecidableEq

/-- Payload construction of the notifier:
`{type:"STATUS_UPDATE", id, status, error: deployment.error || null}`. -/
def mkStatusPayload (img : StreamImage) : Payload :=
  { type := "STATUS_UPDATE", id := img.id, status := img.status,
    error := if jsTruthy img.error then img.error else none }

/-- Whether (and with what) the notifier attempts a push for one record:
only `MODIFY` records, only when a new image is present, and only when
`deployment.connectionId` is truthy. -/
def recordPush (r : StreamRecord) : Option PushAttempt :=
  if r.eventName == "MODIFY" then
    match r.newImage with
    | none => none
    | some img =>
      if jsTruthy img.connectionId then
        some { connectionId := img.connectionId.getD "", payload := mkStatusPayload img }
      else none
  else none

/-- Function `postToConnection` of the notifier: sends once, catches every error,
and logs (`console.error`) exactly when the error's `statusCode` is not
410; a 410 (`GoneException`) is silently swallowed. Returns whether an
error was logged; never throws. -/
def postToConnection (post : String → PostResult) (cid : String) : Bool :=
  match post cid with
  | PostResult.ok => false
  | PostResult.errStatus code => !(code == 410)

/-- Result of one notifier invocation on a batch of stream records: the
pushes attempted (in order), the error logs `(connectionId, statusCode)`
emitted by failed posts, and the job store — which the notifier never
writes (the Lambda holds no DynamoDB client). -/
structure NotifyResult where
  pushes : List PushAttempt
  errorLogs : List (String × Nat)
  store : Store
  deriving DecidableEq

/-- Function `handler` of the stream Lambda: iterate over `event.Records`; for each
record decide the push via `recordPush`; attempt it with `postToConnection`
(which swallows 410 and logs other failures); every record is processed
regardless of the outcome for earlier ones, and the job store is never
mutated. -/
def notifierHandler (post : String → PostResult) (s : Store) :
    List StreamRecord → NotifyResult
  | [] => { pushes := [], errorLogs := [], store := s }
  | r :: rs =>
    let rest := notifierHandler post s rs
    match recordPush r with
    | none => { pushes := rest.pushes, errorLogs := rest.errorLogs, store := rest.store }
    | some p =>
      let logged := postToConnection post p.connectionId
      { pushes := p :: rest.pushes,
        errorLogs :=
          (match post p.connectionId with
           | PostResult.ok => []
           | PostResult.errStatus code =>
             if logged then [(p.connectionId, code)] else []) ++ rest.errorLogs,
        store := rest.store }

/-!
Concrete sample inputs used by counterexamples and witnesses
-/

/-- Whether an event is a durable DEPLOYED write for the given job id. -/
def isDurableDeployedWrite (id : String) : Event → Bool
  | Event.write i st _ durable => i == id && st == "DEPLOYED" && durable
  | Event.deleteMsg => false

/-- A well-formed queue message (its body parses to `{id: "job1"}` under the
sample parse oracles below). -/
def sampleMsg : SqsMessage := { receiptHandle := some "rh-1", body := some "body-job1" }

/-- Parse oracle used by the sample environments: every body parses to a
truthy object with `id = "job1"`. -/
def parseJob1 : String → CParse := fun _ => CParse.value (some "job1")

/-- Environment where the build always fails with message "boom" and all
store/queue sends succeed. -/
def buildFailEnv : ConsumerEnv :=
  { parse := parseJob1, build := fun _ => Except.error "boom",
    writeOk := fun _ => true, deleteOk := true }

/-- Environment where the build succeeds and all sends succeed. -/
def buildOkEnv : ConsumerEnv :=
  { parse := parseJob1, build := fun _ => Except.ok (),
    writeOk := fun _ => true, deleteOk := true }

/-- Environment where the build succeeds but the DynamoDB send of the
DEPLOYED status write fails (and is swallowed by `updateStatus`). -/
def deployWriteFailEnv : ConsumerEnv :=
  { parse := parseJob1, build := fun _ => Except.ok (),
    writeOk := fun st => !(st == "DEPLOYED"), deleteOk := true }

/-- Environment whose parse oracle yields an object lacking the `id`
member. -/
def parseNoIdEnv : ConsumerEnv :=
  { parse := fun _ => CParse.value none, build := fun _ => Except.ok (),
    writeOk := fun _ => true, deleteOk := true }

/-- A MODIFY stream record whose image carries a present-but-empty
`connectionId` attribute. -/
def emptyCidRecord : StreamRecord :=
  { eventName := "MODIFY",
    newImage := some { id := "job1", status := "DEPLOYED", error := none,
                       connectionId := some "" } }

/-- A MODIFY stream record with a registered connection and a stored error. -/
def registeredRecord : StreamRecord :=
  { eventName := "MODIFY",
    newImage := some { id := "job1", status := "ERROR", error := some "boom",
                       connectionId := some "c1" } }

/-- An INSERT stream record (initial PENDING creation). -/
def insertRecord : StreamRecord :=
  { eventName := "INSERT",
    newImage := some { id := "job1", status := "PENDING", error := none,
                       connectionId := none } }

/-- Gateway oracle: every post succeeds. -/
def postOk : String → PostResult := fun _ => PostResult.ok

/-- Gateway oracle: every post fails with 410 (connection gone). -/
def postGone : String → PostResult := fun _ => PostResult.errStatus 410

/-- Gateway oracle: every post fails with 500. -/
def postFail : String → PostResult := fun _ => PostResult.errStatus 500

/-- Register-route parse oracle: every body parses to `{id: "job1"}`. -/
def rparseJob1 : String → RParse := fun _ => RParse.object (some "job1")

/-- Register-route parse oracle: every body parses to an object without an
`id` member. -/
def rparseNoId : String → RParse := fun _ => RParse.object none

/-- A register event from connection "c1". -/
def registerEvent : WsEvent :=
  { routeKey := "register", connectionId := "c1", body := some "body-reg" }

/-- A one-record store holding `job1` in PENDING state. -/
def pendingStore : Store :=
  [("job1", { status := "PENDING", error := none, connectionId := none })]

/-- The push the notifier produces for `registeredRecord` (used by
witnesses). -/
def samplePush : PushAttempt :=
  { connectionId := "c1",
    payload := { type := "STATUS_UPDATE", id := "job1", status := "ERROR",
                 error := some "boom" } }

/-!
Theorems
-/

open List

theorem Store.find_set_self (s : Store) (id : String) (j : Job) :
    Store.find (Store.set s id j) id = some j := by
  induction s with
  | nil => simp [Store.set, Store.find, List.lookup]
  | cons kv rest ih =>
    obtain ⟨k, v⟩ := kv
    by_cases h : k = id
    · subst h
      simp [Store.set, Store.find, List.lookup]
    · have h' : (k == id) = false := by simp [h]
      have h'' : (id == k) = false := by simp [Ne.symm h]
      simp [Store.set, Store.find, List.lookup, h', h'', Store.find] at ih ⊢
      exact ih

theorem Store.find_set_ne (s : Store) (id k : String) (j : Job) (h : k ≠ id) :
    Store.find (Store.set s id j) k = Store.find s k := by
  induction s with
  | nil =>
    have hf : (k == id) = false := beq_eq_false_iff_ne.mpr h
    simp [Store.set, Store.find, List.lookup, hf]
  | cons kv rest ih =>
    obtain ⟨k', v⟩ := kv
    by_cases hk : k' = id
    · subst hk
      have hf : (k == k') = false := beq_eq_false_iff_ne.mpr h
      simp [Store.set, Store.find, List.lookup, hf]
    · have h' : (k' == id) = false := beq_eq_false_iff_ne.mpr hk
      simp [Store.set, Store.find, List.lookup, h'] at ih ⊢
      by_cases hkk : k = k'
      · subst hkk; simp
      · have hf : (k == k') = false := beq_eq_false_iff_ne.mpr hkk
        simp [hf, ih]

/-- C1 counterexample: with the build succeeding but the DynamoDB send of
the DEPLOYED write failing (an error `updateStatus` catches and only logs),
the consumer still deletes the queue message: the trace contains the
deletion although it contains no durable DEPLOYED write at all — refuting
"if the DEPLOYED write itself fails, the message is not deleted". -/
theorem c1_deleted_despite_failed_deployed_write :
    Event.deleteMsg ∈ (processMessage deployWriteFailEnv ([] : Store) sampleMsg).trace ∧
    ∀ e ∈ (processMessage deployWriteFailEnv ([] : Store) sampleMsg).trace,
      isDurableDeployedWrite "job1" e = false := by
  decide

/-- C1 (amended): the consumer deletes the queue message only when the build
succeeded and only after the DEPLOYED status write has been attempted (every
deletion in the trace is preceded by a DEPLOYED write attempt, and deletion
never happens when the build failed or the job id could not be parsed);
however, because `updateStatus` swallows store errors, the deletion happens
whenever the build succeeded and the delete send works — whether or not the
DEPLOYED write was durably recorded. -/
theorem c1_delete_only_after_deployed_write_attempt
    (env : ConsumerEnv) (s : Store) (msg : SqsMessage) :
    (Event.deleteMsg ∈ (processMessage env s msg).trace →
      ∃ jid, (processMessage env s msg).parsedId = some jid ∧
        env.build jid = Except.ok () ∧
        deployAttemptBeforeDeletes jid (processMessage env s msg).trace = true) ∧
    (∀ jid, (processMessage env s msg).parsedId = some jid →
      env.build jid = Except.ok () → env.deleteOk = true →
      Event.deleteMsg ∈ (processMessage env s msg).trace) := by
  have hIPD : (("IN_PROGRESS" : String) == "DEPLOYED") = false := by decide
  simp only [processMessage, updateStatus]
  split
  · simp
  · split
    · simp
    · split
      · simp
      · simp
      · split
        · split
          · rename_i e heq
            constructor
            · intro hmem
              simp at hmem
            · intro jid hjid hbuild _
              rw [Option.some_inj] at hjid
              subst hjid
              rw [heq] at hbuild
              exact absurd hbuild (by simp)
          · rename_i val heq
            split
            · constructor
              · intro _
                refine ⟨_, rfl, ?_, ?_⟩
                · cases val
                  exact heq
                · simp [deployAttemptBeforeDeletes, deployAttemptBeforeDeletes.go, hIPD]
              · intro jid _ _ _
                simp
            · rename_i hdel
              constructor
              · intro hmem
                simp at hmem
              · intro jid hjid hbuild hok
                exact absurd hok hdel
        · simp

/-- Witness for the amended C1 theorem at a concrete successful build. -/
theorem c1_delete_only_after_deployed_write_attempt_witness :
    Event.deleteMsg ∈ (processMessage buildOkEnv ([] : Store) sampleMsg).trace ∧
    ∃ jid, (processMessage buildOkEnv ([] : Store) sampleMsg).parsedId = some jid ∧
      buildOkEnv.build jid = Except.ok () ∧
      deployAttemptBeforeDeletes jid
        (processMessage buildOkEnv ([] : Store) sampleMsg).trace = true := by
  have h := c1_delete_only_after_deployed_write_attempt buildOkEnv ([] : Store) sampleMsg
  have hdel := h.2 "job1" (by decide) rfl rfl
  exact ⟨hdel, h.1 hdel⟩

/-- C2 counterexample: deliver the same message for job `job1` twice with
the build failing each time (exactly what SQS redelivery does after the
consumer declines to delete): the durable status writes for `job1` are
IN_PROGRESS, ERROR, IN_PROGRESS, ERROR — not a subsequence of PENDING,
IN_PROGRESS, {DEPLOYED | ERROR}: the ERROR → IN_PROGRESS step moves
backward and ERROR is revisited. -/
theorem c2_redelivery_moves_status_backward :
    writesOf "job1" (runConsumer buildFailEnv ([] : Store) [sampleMsg, sampleMsg]).2
      = ["IN_PROGRESS", "ERROR", "IN_PROGRESS", "ERROR"] ∧
    ¬ (writesOf "job1" (runConsumer buildFailEnv ([] : Store) [sampleMsg, sampleMsg]).2
         <+ ["PENDING", "IN_PROGRESS", "DEPLOYED"] ∨
       writesOf "job1" (runConsumer buildFailEnv ([] : Store) [sampleMsg, sampleMsg]).2
         <+ ["PENDING", "IN_PROGRESS", "ERROR"]) := by
  decide

/-- C2 (amended): within the processing of any single delivery the durable
status writes for any job id do form a subsequence of PENDING, IN_PROGRESS,
{DEPLOYED | ERROR}; the monotone/terminal property of the original claim
holds per delivery but not across redeliveries, since the consumer's writes
are unconditional last-writer-wins. -/
theorem c2_single_delivery_writes_monotone
    (env : ConsumerEnv) (s : Store) (msg : SqsMessage) (id : String) :
    writesOf id (processMessage env s msg).trace <+ ["PENDING", "IN_PROGRESS", "DEPLOYED"] ∨
    writesOf id (processMessage env s msg).trace <+ ["PENDING", "IN_PROGRESS", "ERROR"] := by
  simp only [processMessage, updateStatus]
  split
  · left; simp [writesOf]
  · split
    · left; simp [writesOf]
    · split
      · left; simp [writesOf]
      · left; simp [writesOf]
      · split
        · split
          · right
            simp only [writesOf, List.filterMap]
            split <;> split <;> simp_all
          · split
            · left
              simp only [writesOf, List.filterMap]
              split <;> split <;> simp_all
            · left
              simp only [writesOf, List.filterMap]
              split <;> split <;> simp_all
        · left; simp [writesOf]

/-- C3: a received message whose body is absent, whose body does not parse,
whose parse result is falsy, or whose parse result lacks a truthy `id`
leaves the job store untouched, produces no write events, and is not
deleted — it is left for the queue's redelivery/DLQ policy. -/
theorem c3_malformed_message_leaves_everything_alone
    (env : ConsumerEnv) (s : Store) (msg : SqsMessage)
    (h : msg.body = none ∨ ∃ raw, msg.body = some raw ∧
          (env.parse raw = CParse.throw ∨ env.parse raw = CParse.falsy ∨
           ∃ i, env.parse raw = CParse.value i ∧ jsTruthy i = false)) :
    (processMessage env s msg).store = s ∧
    (processMessage env s msg).trace = [] ∧
    (processMessage env s msg).deleted = false := by
  simp only [processMessage]
  split
  · simp
  · rcases h with h | ⟨raw, hraw, h | h | ⟨i, hpar, hti⟩⟩ <;> simp_all

/-- Witness for the C3 theorem: a message parsing to an object without an
`id` member. -/
theorem c3_malformed_message_leaves_everything_alone_witness :
    (sampleMsg.body = none ∨ ∃ raw, sampleMsg.body = some raw ∧
       (parseNoIdEnv.parse raw = CParse.throw ∨ parseNoIdEnv.parse raw = CParse.falsy ∨
        ∃ i, parseNoIdEnv.parse raw = CParse.value i ∧ jsTruthy i = false)) ∧
    (processMessage parseNoIdEnv ([] : Store) sampleMsg).store = ([] : Store) ∧
    (processMessage parseNoIdEnv ([] : Store) sampleMsg).trace = [] ∧
    (processMessage parseNoIdEnv ([] : Store) sampleMsg).deleted = false := by
  have hh : sampleMsg.body = none ∨ ∃ raw, sampleMsg.body = some raw ∧
      (parseNoIdEnv.parse raw = CParse.throw ∨ parseNoIdEnv.parse raw = CParse.falsy ∨
       ∃ i, parseNoIdEnv.parse raw = CParse.value i ∧ jsTruthy i = false) :=
    Or.inr ⟨"body-job1", rfl, Or.inr (Or.inr ⟨none, rfl, rfl⟩)⟩
  exact ⟨hh, c3_malformed_message_leaves_everything_alone parseNoIdEnv ([] : Store) sampleMsg hh⟩

/-- C5 counterexample: the build for `job1` fails once ("boom"), the
message is redelivered (the consumer kept it) and the build then succeeds.
The final record is `{status: DEPLOYED, error: "boom"}` — the error
attribute is set while the status is not ERROR, because no consumer write
ever removes the `error` attribute. -/
theorem c5_stale_error_survives_redeployment :
    Store.find
        (processMessage buildOkEnv
          (processMessage buildFailEnv ([] : Store) sampleMsg).store sampleMsg).store "job1"
      = some { status := "DEPLOYED", error := some "boom", connectionId := none } ∧
    ∃ j, Store.find
        (processMessage buildOkEnv
          (processMessage buildFailEnv ([] : Store) sampleMsg).store sampleMsg).store "job1"
        = some j ∧ j.error.isSome = true ∧ j.status ≠ "ERROR" := by
  refine ⟨by decide, ⟨{ status := "DEPLOYED", error := some "boom", connectionId := none },
    by decide, by decide, by decide⟩⟩

/-- C5 (amended): a consumer status write carries a truthy error message
exactly when it is an ERROR write, and a write whose error message is not
truthy (IN_PROGRESS and DEPLOYED writes) leaves the stored `error`
attribute exactly as it was — so the biconditional of the original claim
fails: a stale error from an earlier ERROR state persists through later
IN_PROGRESS and DEPLOYED writes instead of being cleared. -/
theorem c5_error_attribute_set_only_by_error_writes
    (env : ConsumerEnv) (s : Store) (msg : SqsMessage) :
    (∀ i st em d, Event.write i st em d ∈ (processMessage env s msg).trace →
       (jsTruthy em = true ↔ st = "ERROR")) ∧
    (∀ (j : Option Job) st em, jsTruthy em = false →
       (applyStatusUpdate j st em).error = j.elim none Job.error) := by
  constructor
  · simp only [processMessage, updateStatus]
    split
    · intro i st em d h; simp at h
    · split
      · intro i st em d h; simp at h
      · split
        · intro i st em d h; simp at h
        · intro i st em d h; simp at h
        · split
          · split
            · rename_i e heq
              intro i st em d h
              simp at h
              rcases h with ⟨_, hst, hem, _⟩ | ⟨_, hst, hem, _⟩
              · subst hst; subst hem; simp [jsTruthy]
              · subst hst
                subst hem
                constructor
                · intro _; rfl
                · intro _
                  by_cases he : e = ""
                  · simp [jsTruthy, he]
                  · simp [jsTruthy, he]
            · split
              · intro i st em d h
                simp at h
                rcases h with ⟨_, hst, hem, _⟩ | ⟨_, hst, hem, _⟩ <;>
                  (subst hst; subst hem; simp [jsTruthy])
              · intro i st em d h
                simp at h
                rcases h with ⟨_, hst, hem, _⟩ | ⟨_, hst, hem, _⟩ <;>
                  (subst hst; subst hem; simp [jsTruthy])
          · intro i st em d h; simp at h
  · intro j st em hem
    cases j <;> simp [applyStatusUpdate, hem]

/-- Witness for the amended C5 theorem on a concrete failing build. -/
theorem c5_error_attribute_set_only_by_error_writes_witness :
    (Event.write "job1" "ERROR" (some "boom") true
        ∈ (processMessage buildFailEnv ([] : Store) sampleMsg).trace →
      (jsTruthy (some "boom") = true ↔ "ERROR" = "ERROR")) ∧
    (applyStatusUpdate
        (some { status := "ERROR", error := some "boom", connectionId := none })
        "IN_PROGRESS" none).error = some "boom" := by
  have h := c5_error_attribute_set_only_by_error_writes buildFailEnv ([] : Store) sampleMsg
  exact ⟨h.1 "job1" "ERROR" (some "boom") true,
    h.2 (some { status := "ERROR", error := some "boom", connectionId := none })
      "IN_PROGRESS" none rfl⟩

theorem processMessage_thrown_eq_none (env : ConsumerEnv) (s : Store) (msg : SqsMessage)
    (h : env.deleteOk = true) : (processMessage env s msg).thrown = none := by
  simp only [processMessage]
  repeat' split
  all_goals simp_all

theorem processMessages_thrown_eq_none (env : ConsumerEnv) (h : env.deleteOk = true) :
    ∀ (msgs : List SqsMessage) (s : Store), (processMessages env s msgs).2.2 = none := by
  intro msgs
  induction msgs with
  | nil => intro s; rfl
  | cons m ms ih =>
    intro s
    simp only [processMessages]
    rw [processMessage_thrown_eq_none env s m h]
    simp [ih]

/-- C8: one iteration of the polling loop always continues — its backoff is
either 0 or the fixed 5000 ms; a loop-level error (the receive call throwing)
always yields the 5000 ms backoff; and when the receive succeeds and the
queue delete send works, no per-message failure (parse, build or store
write) ever reaches the loop level: the backoff is 0 and the loop proceeds
immediately, so no single message's failure terminates the process. -/
theorem c8_loop_always_continues
    (env : ConsumerEnv) (receive : ReceiveResult) (s : Store) :
    ((pollIteration env receive s).2.2 = 0 ∨ (pollIteration env receive s).2.2 = 5000) ∧
    (∀ e, receive = ReceiveResult.err e → (pollIteration env receive s).2.2 = 5000) ∧
    (env.deleteOk = true → ∀ msgs, receive = ReceiveResult.ok msgs →
      (pollIteration env receive s).2.2 = 0) := by
  refine ⟨?_, ?_, ?_⟩
  · cases receive with
    | err e => right; rfl
    | ok msgs =>
      simp only [pollIteration]
      cases hth : (processMessages env s msgs).2.2 <;> simp [hth]
  · intro e he
    subst he
    rfl
  · intro hok msgs hrec
    subst hrec
    simp only [pollIteration]
    rw [processMessages_thrown_eq_none env hok msgs s]
    rfl

/-- Witness for the C8 theorem: a failed receive backs off 5000 ms, a
successful receive of a failing-build message continues immediately. -/
theorem c8_loop_always_continues_witness :
    (pollIteration buildFailEnv (ReceiveResult.err "network error") ([] : Store)).2.2 = 5000 ∧
    (pollIteration buildFailEnv (ReceiveResult.ok [sampleMsg]) ([] : Store)).2.2 = 0 :=
  ⟨(c8_loop_always_continues buildFailEnv (ReceiveResult.err "network error")
      ([] : Store)).2.1 "network error" rfl,
   (c8_loop_always_continues buildFailEnv (ReceiveResult.ok [sampleMsg])
      ([] : Store)).2.2 rfl [sampleMsg] rfl⟩

/-- C4: registering a connection against a job id parses the body and runs a
conditional update. When no job record exists under the id, the write fails
(conditional-check), the catch surfaces a 500 "Registration failed."
response to the caller, and the store is completely unchanged — no record
is created. When the record exists, the handler sets its `connectionId` to
the caller's connection, leaves every other record untouched, and responds
200. -/
theorem c4_register_requires_existing_job
    (parse : String → RParse) (s : Store) (ev : WsEvent) (raw jid : String)
    (hroute : ev.routeKey = "register") (hbody : ev.body = some raw)
    (hparse : parse raw = RParse.object (some jid)) (hjid : jid ≠ "") :
    (Store.find s jid = none →
       (wsHandler parse s ev).store = s ∧
       (wsHandler parse s ev).response.statusCode = 500) ∧
    (∀ j, Store.find s jid = some j →
       Store.find (wsHandler parse s ev).store jid
         = some { j with connectionId := some ev.connectionId } ∧
       (∀ k, k ≠ jid → Store.find (wsHandler parse s ev).store k = Store.find s k) ∧
       (wsHandler parse s ev).response.statusCode = 200) := by
  have hc : (("register" : String) == "$connect") = false := by decide
  have hd : (("register" : String) == "$disconnect") = false := by decide
  have hr : (("register" : String) == "register") = true := by decide
  have ht : jsTruthy (some jid) = true := by simp [jsTruthy, hjid]
  constructor
  · intro hfind
    simp [wsHandler, hroute, hbody, hparse, hc, hd, hr, ht, registerWrite, hfind]
  · intro j hfind
    simp only [wsHandler, hroute, hbody, hparse, hc, hd, hr, ht, registerWrite,
      Option.getD_some, hfind, if_true, if_false, Bool.false_eq_true, ite_false, ite_true]
    refine ⟨Store.find_set_self s jid _, ?_, trivial⟩
    intro k hk
    exact Store.find_set_ne s jid k _ hk

/-- Witness for the C4 theorem: registration against an empty store fails
with 500 and writes nothing; registration against an existing PENDING job
binds the connection. -/
theorem c4_register_requires_existing_job_witness :
    ((wsHandler rparseJob1 ([] : Store) registerEvent).store = ([] : Store) ∧
     (wsHandler rparseJob1 ([] : Store) registerEvent).response.statusCode = 500) ∧
    (Store.find (wsHandler rparseJob1 pendingStore registerEvent).store "job1"
       = some { status := "PENDING", error := none, connectionId := some "c1" } ∧
     (wsHandler rparseJob1 pendingStore registerEvent).response.statusCode = 200) := by
  have habs := (c4_register_requires_existing_job rparseJob1 ([] : Store) registerEvent
    "body-reg" "job1" rfl rfl rfl (by decide)).1 rfl
  have hex := (c4_register_requires_existing_job rparseJob1 pendingStore registerEvent
    "body-reg" "job1" rfl rfl rfl (by decide)).2
    { status := "PENDING", error := none, connectionId := none } (by decide)
  exact ⟨habs, hex.1, hex.2.2⟩

/-- C9: a register request whose parsed body has no truthy `id` member gets
a 400 response, performs no job-store write, and pushes nothing to the
connection. -/
theorem c9_register_without_id_gives_400
    (parse : String → RParse) (s : Store) (ev : WsEvent) (raw : String) (i : Option String)
    (hroute : ev.routeKey = "register") (hbody : ev.body = some raw)
    (hparse : parse raw = RParse.object i) (hid : jsTruthy i = false) :
    (wsHandler parse s ev).store = s ∧
    (wsHandler parse s ev).response.statusCode = 400 ∧
    (wsHandler parse s ev).pushes = [] := by
  have hc : (("register" : String) == "$connect") = false := by decide
  have hd : (("register" : String) == "$disconnect") = false := by decide
  have hr : (("register" : String) == "register") = true := by decide
  simp [wsHandler, hroute, hbody, hparse, hc, hd, hr, hid]

/-- Witness for the C9 theorem: a body parsing to an object with no `id`. -/
theorem c9_register_without_id_gives_400_witness :
    (wsHandler rparseNoId pendingStore registerEvent).store = pendingStore ∧
    (wsHandler rparseNoId pendingStore registerEvent).response.statusCode = 400 ∧
    (wsHandler rparseNoId pendingStore registerEvent).pushes = [] :=
  c9_register_without_id_gives_400 rparseNoId pendingStore registerEvent
    "body-reg" none rfl rfl rfl rfl

theorem notifierHandler_store (post : String → PostResult) (s : Store)
    (records : List StreamRecord) : (notifierHandler post s records).store = s := by
  induction records with
  | nil => rfl
  | cons r rs ih =>
    simp only [notifierHandler]
    split <;> simpa using ih

theorem notifierHandler_pushes (post : String → PostResult) (s : Store)
    (records : List StreamRecord) :
    (notifierHandler post s records).pushes = records.filterMap recordPush := by
  induction records with
  | nil => rfl
  | cons r rs ih =>
    simp only [notifierHandler, List.filterMap_cons]
    split <;> rename_i hpr <;> simp [hpr, ih]

theorem notifierHandler_errorLogs (post : String → PostResult) (s : Store)
    (records : List StreamRecord) :
    (notifierHandler post s records).errorLogs =
      (records.filterMap recordPush).filterMap (fun p =>
        match post p.connectionId with
        | PostResult.ok => none
        | PostResult.errStatus code =>
          if code == 410 then none else some (p.connectionId, code)) := by
  induction records with
  | nil => rfl
  | cons r rs ih =>
    cases hpr : recordPush r with
    | none => simp [notifierHandler, hpr, List.filterMap_cons, ih]
    | some p =>
      simp only [notifierHandler, hpr, List.filterMap_cons]
      cases hpost : post p.connectionId with
      | ok => simp [postToConnection, hpost, ih]
      | errStatus code =>
        by_cases hcode : code = 410
        · subst hcode
          simp [postToConnection, hpost, ih]
        · have hc : (code == 410) = false := by simpa using hcode
          simp [postToConnection, hpost, ih, hc, hcode]

/-- C6 counterexample: a MODIFY stream record whose image has the
`connectionId` attribute present but equal to the empty string: the
attribute is present, the event class is MODIFY, yet the notifier attempts
no push, because the source tests JavaScript truthiness
(`if (deployment.connectionId)`), not attribute presence. -/
theorem c6_present_empty_connection_not_pushed :
    recordPush emptyCidRecord = none ∧
    emptyCidRecord.eventName = "MODIFY" ∧
    ∃ img, emptyCidRecord.newImage = some img ∧ img.connectionId.isSome = true := by
  refine ⟨by decide, rfl, ?_⟩
  exact ⟨{ id := "job1", status := "DEPLOYED", error := none, connectionId := some "" },
    rfl, rfl⟩

/-- C6 (amended): a push is attempted for a stream record exactly when the
record's event class is MODIFY, a new image is present, and the image's
`connectionId` is truthy (present **and non-empty**); records failing this
test — INSERT records, records without a registered connection — contribute
nothing at all to the handler's output (no push attempt, no error log). -/
theorem c6_push_iff_modify_and_truthy_connection
    (post : String → PostResult) (s : Store) (records : List StreamRecord) :
    (notifierHandler post s records).pushes = records.filterMap recordPush ∧
    (∀ r : StreamRecord, (recordPush r).isSome = true ↔
      (r.eventName = "MODIFY" ∧
       ∃ img, r.newImage = some img ∧ jsTruthy img.connectionId = true)) ∧
    (∀ r rs, recordPush r = none →
      notifierHandler post s (r :: rs) = notifierHandler post s rs) := by
  refine ⟨notifierHandler_pushes post s records, ?_, ?_⟩
  · intro r
    rcases r with ⟨en, img⟩
    rcases img with _ | img
    · simp only [recordPush]
      cases he : (en == "MODIFY") <;> simp [he]
    · simp only [recordPush]
      cases he : (en == "MODIFY")
      · simp [he, beq_eq_false_iff_ne.mp he]
      · cases ht : jsTruthy img.connectionId <;>
          simp [he, ht, eq_of_beq he]
  · intro r rs h
    simp [notifierHandler, h]

/-- Witness for the amended C6 theorem: a registered MODIFY record is
pushed, an INSERT record contributes nothing. -/
theorem c6_push_iff_modify_and_truthy_connection_witness :
    (notifierHandler postOk ([] : Store) [registeredRecord, insertRecord]).pushes
      = [registeredRecord, insertRecord].filterMap recordPush ∧
    ((recordPush registeredRecord).isSome = true ↔
      (registeredRecord.eventName = "MODIFY" ∧
       ∃ img, registeredRecord.newImage = some img ∧ jsTruthy img.connectionId = true)) ∧
    notifierHandler postOk ([] : Store) (insertRecord :: [])
      = notifierHandler postOk ([] : Store) [] := by
  have h := c6_push_iff_modify_and_truthy_connection postOk ([] : Store)
    [registeredRecord, insertRecord]
  exact ⟨h.1, h.2.1 registeredRecord, h.2.2 insertRecord [] (by decide)⟩

/-- C7: over any batch of stream records the notifier never mutates the job
store; it attempts exactly one post per qualifying record, processing every
record of the batch regardless of earlier outcomes; and it emits an error
log exactly for those attempted posts that fail with a status other than
410 — a 410 ("connection gone") failure is swallowed without retry and
without any error log. -/
theorem c7_delivery_failure_policy
    (post : String → PostResult) (s : Store) (records : List StreamRecord) :
    (notifierHandler post s records).store = s ∧
    (notifierHandler post s records).pushes = records.filterMap recordPush ∧
    (notifierHandler post s records).errorLogs =
      (records.filterMap recordPush).filterMap (fun p =>
        match post p.connectionId with
        | PostResult.ok => none
        | PostResult.errStatus code =>
          if code == 410 then none else some (p.connectionId, code)) :=
  ⟨notifierHandler_store post s records, notifierHandler_pushes post s records,
   notifierHandler_errorLogs post s records⟩

/-- C10: every push the notifier produces carries a `STATUS_UPDATE` payload
whose `error` field is always materialised: it equals the stored error
string when that attribute is present and non-empty, and is null (`none`)
when the attribute is absent or empty. -/
theorem c10_payload_error_always_materialised
    (post : String → PostResult) (s : Store) (records : List StreamRecord)
    (p : PushAttempt) (hp : p ∈ (notifierHandler post s records).pushes) :
    p.payload.type = "STATUS_UPDATE" ∧
    ∃ r ∈ records, ∃ img, r.newImage = some img ∧
      ((∀ es, img.error = some es → es ≠ "" → p.payload.error = some es) ∧
       ((img.error = none ∨ img.error = some "") → p.payload.error = none)) := by
  rw [notifierHandler_pushes, List.mem_filterMap] at hp
  obtain ⟨r, hr, hpr⟩ := hp
  rcases r with ⟨en, imgOpt⟩
  rcases imgOpt with _ | img
  · simp [recordPush] at hpr
  · by_cases he : en = "MODIFY"
    · subst he
      simp only [recordPush, beq_self_eq_true, if_true] at hpr
      by_cases ht : jsTruthy img.connectionId = true
      · rw [if_pos ht, Option.some_inj] at hpr
        subst hpr
        refine ⟨rfl, ⟨"MODIFY", some img⟩, hr, img, rfl, ?_, ?_⟩
        · intro es hes hne
          have hb : (es == "") = false := by simpa using hne
          simp [mkStatusPayload, jsTruthy, hes, hb]
        · intro hcase
          rcases hcase with h | h <;> simp [mkStatusPayload, jsTruthy, h]
      · rw [if_neg ht] at hpr
        exact absurd hpr (by simp)
    · have hb : (en == "MODIFY") = false := by simpa using he
      simp [recordPush, hb] at hpr

/-- Witness for the C10 theorem: the push for a registered MODIFY record of
an ERRORed job carries `error = "boom"`. -/
theorem c10_payload_error_always_materialised_witness :
    samplePush ∈ (notifierHandler postOk ([] : Store) [registeredRecord]).pushes ∧
    samplePush.payload.type = "STATUS_UPDATE" := by
  have hm : samplePush ∈ (notifierHandler postOk ([] : Store) [registeredRecord]).pushes := by
    decide
  exact ⟨hm, (c10_payload_error_always_materialised postOk ([] : Store)
    [registeredRecord] samplePush hm).1⟩

end Vercel
